import Mathlib

set_option maxRecDepth 8000

/-!
Verification development for the chatgbt conversation core: the context
pruner (`ContextManager`), token estimator, budget/metrics tracker
(`MetricsLogger`) and the per-turn session orchestration
(`ChatSession.ProcessUserMessage`), shallowly embedded from the Go source.

Modelling conventions:
* Go strings are Lean `String`s; `Role` is a plain string in the source
  (`type Role string`), so message roles are strings here too.
* Go `int` is `Int` where values can come from configuration or the wire
  (`maxTokens`, token counts in `Usage`), and `Nat` where the value is a
  count derived from list lengths (`keepRecent`, the number of kept
  exchanges, is a count and is passed as a non-negative literal at every
  construction site).
* Go `float64` fields (`warnThreshold`, `costPerToken`, cost accumulators,
  percentages) are modelled as exact rationals `ℚ`; `fmt` fixed-point
  formatting is modelled by explicit rounding on `ℚ`.
* Wall-clock timestamps and the append-only log file are side effects
  outside the claims and are dropped; measured latency is threaded through
  as data.
-/

namespace ChatGBT

/-- A conversation message: role tag (system/user/assistant as strings, per
`type Role string`) and content, from `backend.Message`. -/
structure Message where
  role : String
  content : String
deriving DecidableEq, Repr

/-- Model of Go `strings.ToLower` (the source only lowercases ASCII keywords). -/
def toLowerStr (s : String) : String :=
  String.mk (s.data.map Char.toLower)

/-- Model of Go `strings.Contains hay needle`: some suffix of `hay` has `needle`
as a prefix. -/
def strContains (hay needle : String) : Bool :=
  hay.data.tails.any (fun t => needle.data.isPrefixOf t)

/-- The `contains` helper of the context-manager file: membership of a string in
a slice. -/
def containsStr (slice : List String) (item : String) : Bool :=
  slice.any (fun s => s == item)

/-- Configuration of `backend.ContextManager`: token budget, number of recent
exchanges always kept, and whether a summary message is synthesized. -/
structure ContextManager where
  maxTokens : Int
  keepRecent : Nat
  summaryEnabled : Bool
deriving DecidableEq, Repr

/-- One pass over messages collecting the deduplicated topic tags (in first
appearance order) and the user/assistant message counts, mirroring the loop
body of `ContextManager.createSummary`. -/
def summaryScan (messages : List Message) : List String × Nat × Nat :=
  messages.foldl
    (fun acc msg =>
      if msg.role = "user" then
        let content := toLowerStr msg.content
        let topics :=
          if (strContains content "code" || strContains content "debug" ||
              strContains content "error") && !(containsStr acc.1 "code/debugging") then
            acc.1 ++ ["code/debugging"]
          else acc.1
        let topics :=
          if (strContains content "explain" || strContains content "how" ||
              strContains content "what") && !(containsStr topics "explanations") then
            topics ++ ["explanations"]
          else topics
        let topics :=
          if (strContains content "write" || strContains content "create" ||
              strContains content "generate") && !(containsStr topics "content creation") then
            topics ++ ["content creation"]
          else topics
        (topics, acc.2.1 + 1, acc.2.2)
      else if msg.role = "assistant" then
        (acc.1, acc.2.1, acc.2.2 + 1)
      else acc)
    ([], 0, 0)

/-- `ContextManager.createSummary`: a keyword summary of the discarded
messages. (The Go receiver is unused by the method body, so it is dropped.) -/
def createSummary (messages : List Message) : String :=
  if messages = [] then "" else
  let scan := summaryScan messages
  if scan.1 = [] then
    "General conversation with " ++ toString scan.2.1 ++ " exchanges"
  else
    "Discussed " ++ String.intercalate ", " scan.1 ++ " across " ++
      toString scan.2.1 ++ " exchanges"

/-- The `(systemMessage, startIdx)` pair computed at the top of
`ContextManager.PruneContext`: the zero value `Message{}` and index 0 unless
the first message has the system role. -/
def leadingSystem (messages : List Message) : Message × Nat :=
  match messages with
  | [] => (⟨"", ""⟩, 0)
  | m :: _ => if m.role = "system" then (m, 1) else (⟨"", ""⟩, 0)

/-- `ContextManager.PruneContext`: reduce the message list when over the token
limit, keeping the last `keepRecent*2` body messages, re-adding a captured
system message (the source re-adds it only when its content is non-empty) and,
when enabled, a synthesized summary message. -/
def pruneContext (cm : ContextManager) (messages : List Message)
    (currentTokens : Int) : List Message × Bool :=
  if currentTokens ≤ cm.maxTokens then (messages, false) else
  let sys := leadingSystem messages
  let userMessages := messages.drop sys.2
  if userMessages.length ≤ cm.keepRecent * 2 then (messages, false) else
  let recentStart := userMessages.length - cm.keepRecent * 2
  let pruned1 := if sys.1.content ≠ "" then [sys.1] else []
  let pruned2 :=
    if cm.summaryEnabled ∧ 0 < recentStart then
      let summaryContent := createSummary (userMessages.take recentStart)
      if summaryContent ≠ "" then
        pruned1 ++ [⟨"system", "Previous conversation summary: " ++ summaryContent⟩]
      else pruned1
    else pruned1
  (pruned2 ++ userMessages.drop recentStart, true)

/-- `ContextManager.EstimateTokens`: total characters of roles and contents
plus 20 per message, divided by 4 (Go integer division on non-negative
values equals `Nat` division). -/
def estimateTokens (messages : List Message) : Nat :=
  (messages.foldl
    (fun totalChars msg => totalChars + msg.role.length + msg.content.length + 20) 0) / 4

/-- `ContextManager.ShouldPrune`: the estimate strictly exceeds `maxTokens`. -/
def shouldPrune (cm : ContextManager) (messages : List Message) : Bool :=
  decide (cm.maxTokens < (estimateTokens messages : Int))

/-- `backend.ContextStats`, with the float64 utilization percentage as `ℚ`
(Go float division by a zero `maxTokens` is not exercised by any claim). -/
structure ContextStats where
  totalMessages : Nat
  userMessages : Nat
  assistantMessages : Nat
  systemMessages : Nat
  estimatedTokens : Nat
  tokenLimit : Int
  utilizationPct : ℚ
  shouldPrune : Bool
deriving DecidableEq, Repr

/-- The per-role counting loop of `ContextManager.GetContextStats`. -/
def roleCounts (messages : List Message) : Nat × Nat × Nat :=
  messages.foldl
    (fun acc msg =>
      if msg.role = "user" then (acc.1 + 1, acc.2.1, acc.2.2)
      else if msg.role = "assistant" then (acc.1, acc.2.1 + 1, acc.2.2)
      else if msg.role = "system" then (acc.1, acc.2.1, acc.2.2 + 1)
      else acc)
    (0, 0, 0)

/-- `ContextManager.GetContextStats`. -/
def getContextStats (cm : ContextManager) (messages : List Message) : ContextStats :=
  let estimatedTokens := estimateTokens messages
  let counts := roleCounts messages
  { totalMessages := messages.length
    userMessages := counts.1
    assistantMessages := counts.2.1
    systemMessages := counts.2.2
    estimatedTokens := estimatedTokens
    tokenLimit := cm.maxTokens
    utilizationPct := (estimatedTokens : ℚ) / (cm.maxTokens : ℚ) * 100
    shouldPrune := decide (cm.maxTokens < (estimatedTokens : Int)) }

/-- Keywords of the `code_help` case of `app.ClassifyPrompt`. -/
def codeHelpKeywords : List String :=
  ["code", "debug", "programming", "function", "variable", "syntax",
   "compile", "error", "algorithm", "script"]

/-- Keywords of the `explanation` case of `app.ClassifyPrompt`. -/
def explanationKeywords : List String :=
  ["explain", "how", "what", "why", "define", "describe", "clarify",
   "understand", "meaning", "difference"]

/-- Keywords of the `creative` case of `app.ClassifyPrompt`. -/
def creativeKeywords : List String :=
  ["write", "create", "generate", "compose", "draft", "make", "build",
   "design", "story", "poem"]

/-- Keywords of the `analysis` case of `app.ClassifyPrompt`. -/
def analysisKeywords : List String :=
  ["analyze", "review", "compare", "evaluate", "assess", "critique",
   "examine", "study"]

/-- Keywords of the `problem_solving` case of `app.ClassifyPrompt`. -/
def problemSolvingKeywords : List String :=
  ["solve", "calculate", "math", "equation", "formula", "problem",
   "compute", "number"]

/-- Keywords of the `language` case of `app.ClassifyPrompt`. -/
def languageKeywords : List String :=
  ["translate", "language", "grammar", "spell", "correct", "edit"]

/-- Disjunction of `strings.Contains` checks over a keyword list (the chained
`||` of one `case` of the Go `switch`). -/
def matchesAny (lowerInput : String) (keywords : List String) : Bool :=
  keywords.any (fun k => strContains lowerInput k)

/-- `app.ClassifyPrompt`: first matching keyword bucket wins, in the order of
the Go `switch`; empty input and no match give `general`. -/
def classifyPrompt (input : String) : String :=
  if input = "" then "general" else
  let lowerInput := toLowerStr input
  if matchesAny lowerInput codeHelpKeywords then "code_help"
  else if matchesAny lowerInput explanationKeywords then "explanation"
  else if matchesAny lowerInput creativeKeywords then "creative"
  else if matchesAny lowerInput analysisKeywords then "analysis"
  else if matchesAny lowerInput problemSolvingKeywords then "problem_solving"
  else if matchesAny lowerInput languageKeywords then "language"
  else "general"

/-- `backend.Usage`: token usage reported by the provider (Go `int` fields;
the optional per-detail breakdowns are never read by the core and dropped). -/
structure Usage where
  promptTokens : Int
  completionTokens : Int
  totalTokens : Int
deriving DecidableEq, Repr

/-- `backend.TokenBudgetConfig`, float64 fields as `ℚ`. -/
structure TokenBudgetConfig where
  dailyLimit : Int
  sessionLimit : Int
  warnThreshold : ℚ
  pruneThreshold : Int
  costPerToken : ℚ
deriving DecidableEq, Repr

/-- `backend.InteractionMetric` (timestamp dropped; `responseTime` is the
measured latency in milliseconds). -/
structure InteractionMetric where
  requestTokens : Int
  responseTokens : Int
  totalTokens : Int
  responseTime : Int
  success : Bool
  errorType : String
  promptType : String
deriving DecidableEq, Repr

/-- The mutable counters of `backend.SessionMetrics` (identity and timing
fields that no claim touches are dropped). -/
structure SessionMetrics where
  totalRequests : Nat
  successfulReqs : Nat
  failedReqs : Nat
  totalTokens : Int
  promptTokens : Int
  completionTokens : Int
  estimatedCost : ℚ
  interactions : List InteractionMetric
deriving DecidableEq, Repr

/-- `backend.MetricsLogger` state (the log-file handle is an external sink and
is dropped). -/
structure MetricsLogger where
  session : SessionMetrics
  budgetCfg : TokenBudgetConfig
deriving DecidableEq, Repr

/-- The fresh state built by `backend.NewMetricsLogger` (all counters zero). -/
def mkMetricsLogger (budgetCfg : TokenBudgetConfig) : MetricsLogger :=
  { session :=
      { totalRequests := 0, successfulReqs := 0, failedReqs := 0
        totalTokens := 0, promptTokens := 0, completionTokens := 0
        estimatedCost := 0, interactions := [] }
    budgetCfg := budgetCfg }

/-- `backend.InteractionLog`: the structured argument of `LogInteraction`. -/
structure InteractionLog where
  usage : Option Usage
  responseTime : Int
  success : Bool
  errorType : String
  promptType : String
deriving DecidableEq, Repr

/-- `MetricsLogger.LogInteraction`: append an interaction record and, when
usage is present, accumulate the token and cost counters. The write to the
log file is an external side effect and is dropped. -/
def logInteraction (ml : MetricsLogger) (lg : InteractionLog) : MetricsLogger :=
  let interaction : InteractionMetric :=
    match lg.usage with
    | some usage =>
      { requestTokens := usage.promptTokens, responseTokens := usage.completionTokens
        totalTokens := usage.totalTokens, responseTime := lg.responseTime
        success := lg.success, errorType := lg.errorType, promptType := lg.promptType }
    | none =>
      { requestTokens := 0, responseTokens := 0, totalTokens := 0
        responseTime := lg.responseTime, success := lg.success
        errorType := lg.errorType, promptType := lg.promptType }
  let sess := ml.session
  let sess :=
    match lg.usage with
    | some usage =>
      { sess with
        totalTokens := sess.totalTokens + usage.totalTokens
        promptTokens := sess.promptTokens + usage.promptTokens
        completionTokens := sess.completionTokens + usage.completionTokens
        estimatedCost := sess.estimatedCost + (usage.totalTokens : ℚ) * ml.budgetCfg.costPerToken }
    | none => sess
  let sess :=
    if lg.success then
      { sess with totalRequests := sess.totalRequests + 1
                  successfulReqs := sess.successfulReqs + 1 }
    else
      { sess with totalRequests := sess.totalRequests + 1
                  failedReqs := sess.failedReqs + 1 }
  { ml with session := { sess with interactions := sess.interactions ++ [interaction] } }

/-- Zero padding for the fractional digits of fixed-point formatting. -/
def fmtPad (width : Nat) (s : String) : String :=
  String.mk (List.replicate (width - s.length) '0') ++ s

/-- Rendering of a scaled integer as a fixed-point decimal string. -/
def fmtParts (decimals : Nat) (n : Int) : String :=
  toString (n / (10 : Int) ^ decimals) ++ "." ++
    fmtPad decimals (toString ((n % (10 : Int) ^ decimals).toNat))

/-- Model of `fmt` fixed-point formatting `%.{decimals}f` for the
non-negative values the budget warnings print: round to `decimals` places
(scale, add one half, floor) and print with zero padding. -/
def fmtFixed (decimals : Nat) (q : ℚ) : String :=
  fmtParts decimals ⌊q * (((10 : Int) ^ decimals : Int) : ℚ) + 1 / 2⌋

/-- `backend.BudgetStatus`. -/
structure BudgetStatus where
  sessionTokens : Int
  sessionCost : ℚ
  sessionLimit : Int
  dailyLimit : Int
  warnings : List String
  overBudget : Bool
  shouldPrune : Bool
deriving DecidableEq, Repr

/-- The percentage warning string appended by `CheckBudgetStatus`
(`"Session token usage at %.1f%% of limit (%d/%d tokens)"`). -/
def pctWarning (sessionUsage : ℚ) (sessionTokens sessionLimit : Int) : String :=
  "Session token usage at " ++ fmtFixed 1 (sessionUsage * 100) ++
    "% of limit (" ++ toString sessionTokens ++ "/" ++ toString sessionLimit ++ " tokens)"

/-- The cost warning string appended by `CheckBudgetStatus`
(`"Session cost: $%.3f"`). -/
def costWarning (cost : ℚ) : String :=
  "Session cost: $" ++ fmtFixed 3 cost

/-- `MetricsLogger.CheckBudgetStatus`: prune recommendation from the prune
threshold, percentage warning and over-budget flag from the session limit,
and an independent absolute cost warning. -/
def checkBudgetStatus (ml : MetricsLogger) : BudgetStatus :=
  let warns1 :=
    if 0 < ml.budgetCfg.sessionLimit then
      let sessionUsage : ℚ :=
        (ml.session.totalTokens : ℚ) / (ml.budgetCfg.sessionLimit : ℚ)
      if ml.budgetCfg.warnThreshold < sessionUsage then
        [pctWarning sessionUsage ml.session.totalTokens ml.budgetCfg.sessionLimit]
      else []
    else []
  let over :=
    if 0 < ml.budgetCfg.sessionLimit then
      decide (1 < (ml.session.totalTokens : ℚ) / (ml.budgetCfg.sessionLimit : ℚ))
    else false
  let warns2 :=
    if 1 < ml.session.estimatedCost then [costWarning ml.session.estimatedCost] else []
  { sessionTokens := ml.session.totalTokens
    sessionCost := ml.session.estimatedCost
    sessionLimit := ml.budgetCfg.sessionLimit
    dailyLimit := ml.budgetCfg.dailyLimit
    warnings := warns1 ++ warns2
    overBudget := over
    shouldPrune := decide (ml.budgetCfg.pruneThreshold < ml.session.totalTokens) }

/-- `backend.SessionSummary` (wall-clock duration dropped; success rate is the
Go float division, as `ℚ`, so the zero-request case yields 0 where Go
produces NaN — no claim touches that case). -/
structure SessionSummary where
  totalRequests : Nat
  successRate : ℚ
  totalTokens : Int
  estimatedCost : ℚ
  avgResponseTime : Int
deriving DecidableEq, Repr

/-- `MetricsLogger.GetSessionSummary`. -/
def getSessionSummary (ml : MetricsLogger) : SessionSummary :=
  let avgResponseTime :=
    if ml.session.interactions.length ≠ 0 then
      (ml.session.interactions.foldl (fun t i => t + i.responseTime) 0) /
        (ml.session.interactions.length : Int)
    else 0
  { totalRequests := ml.session.totalRequests
    successRate := (ml.session.successfulReqs : ℚ) / (ml.session.totalRequests : ℚ)
    totalTokens := ml.session.totalTokens
    estimatedCost := ml.session.estimatedCost
    avgResponseTime := avgResponseTime }

/-- `backend.Choice` of the provider response (index and finish reason are
never read by the session code and dropped). -/
structure Choice where
  message : Message
deriving DecidableEq, Repr

/-- `backend.ChatCompletionResponse` as consumed by `ProcessUserMessage`:
the choices and the optional usage. -/
structure ChatCompletionResponse where
  choices : List Choice
  usage : Option Usage
deriving DecidableEq, Repr

/-- Outcome of the external completion capability
(`LLMClient.CreateCompletion`): a response, or an error with its message. -/
inductive CompletionResult where
  | ok (resp : ChatCompletionResponse)
  | err (msg : String)
deriving DecidableEq, Repr

/-- `app.getErrorType`: classify an error string into an error kind. -/
def getErrorType (result : CompletionResult) : String :=
  match result with
  | .ok _ => ""
  | .err e =>
    let errStr := toLowerStr e
    if strContains errStr "api" then "api_error"
    else if strContains errStr "network" || strContains errStr "timeout" then "network_error"
    else if strContains errStr "auth" || strContains errStr "unauthorized" then "auth_error"
    else if strContains errStr "quota" || strContains errStr "limit" then "quota_error"
    else "unknown_error"

/-- `app.ChatSession`: the conversation history plus its metrics logger and
context manager (identity strings kept for completeness). -/
structure ChatSession where
  id : String
  messages : List Message
  systemPrompt : String
  logger : MetricsLogger
  contextManager : ContextManager
deriving DecidableEq, Repr

/-- `app.ChatResponse` returned on a successful turn (latency in ms). -/
structure ChatResponse where
  content : String
  usage : Option Usage
  responseTime : Int
  warnings : List String
  promptType : String
deriving DecidableEq, Repr

/-- `ChatSession.removeLastUserMessage`: drop the last message if it has the
user role. -/
def removeLastUserMessage (messages : List Message) : List Message :=
  match messages.getLast? with
  | some m => if m.role = "user" then messages.dropLast else messages
  | none => messages

/-- `ChatSession.AutoPrune`: estimate, prune, and install the new history when
pruning occurred. -/
def autoPrune (s : ChatSession) : ChatSession × Bool :=
  let originalTokens := estimateTokens s.messages
  let res := pruneContext s.contextManager s.messages (originalTokens : Int)
  if res.2 then ({ s with messages := res.1 }, true) else (s, false)

/-- The two pruning checks at the top of `ChatSession.ProcessUserMessage`:
the token-estimate check and the 1000-message hard ceiling. -/
def pruneIfNeeded (s : ChatSession) : ChatSession :=
  let s := if shouldPrune s.contextManager s.messages then (autoPrune s).1 else s
  if 1000 < s.messages.length then (autoPrune s).1 else s

/-- `ChatSession.ProcessUserMessage`, with the completion outcome and the
measured latency supplied as inputs: prune if needed, append the user
message, classify it, log the interaction, then either roll back the user
message (on error, returning no response) or append the assistant reply and
return the response with fresh budget warnings. -/
def processUserMessage (s : ChatSession) (userMessage : String)
    (result : CompletionResult) (responseTime : Int) :
    ChatSession × Option ChatResponse :=
  let s := pruneIfNeeded s
  let s := { s with messages := s.messages ++ [(⟨"user", userMessage⟩ : Message)] }
  let promptType := classifyPrompt userMessage
  let reply :=
    match result with
    | .ok resp => match resp.choices with | c :: _ => c.message.content | [] => ""
    | .err _ => ""
  let usage :=
    match result with
    | .ok resp => match resp.choices with | _ :: _ => resp.usage | [] => none
    | .err _ => none
  let success := match result with | .ok _ => true | .err _ => false
  let s := { s with
    logger := logInteraction s.logger
      (⟨usage, responseTime, success, getErrorType result, promptType⟩ : InteractionLog) }
  match result with
  | .err _ =>
    ({ s with messages := removeLastUserMessage s.messages }, none)
  | .ok _ =>
    let s := { s with messages := s.messages ++ [(⟨"assistant", reply⟩ : Message)] }
    let budgetStatus := checkBudgetStatus s.logger
    (s, some (⟨reply, usage, responseTime, budgetStatus.warnings, promptType⟩ : ChatResponse))

/-- One turn's inputs as seen by the session: the user utterance, the external
completion outcome, and the measured latency. -/
structure TurnInput where
  userMessage : String
  result : CompletionResult
  responseTime : Int
deriving DecidableEq, Repr

/-- Fold a sequence of turns through `processUserMessage`, keeping the session
state. -/
def processTurns (s : ChatSession) (turns : List TurnInput) : ChatSession :=
  turns.foldl (fun s t => (processUserMessage s t.userMessage t.result t.responseTime).1) s

/-- The usage actually recorded for a turn by `ProcessUserMessage`: present
only on success with a non-empty choice list. -/
def recordedUsage (result : CompletionResult) : Option Usage :=
  match result with
  | .ok resp => match resp.choices with | _ :: _ => resp.usage | [] => none
  | .err _ => none

/-- The token-count contribution of one turn to the session totals. -/
def turnTokens (result : CompletionResult) : Int :=
  match recordedUsage result with
  | some usage => usage.totalTokens
  | none => 0

/-- The non-system "body" of the history, exactly as `PruneContext` computes
it: everything after the captured leading system message, if any. -/
def pruneBody (messages : List Message) : List Message :=
  messages.drop (leadingSystem messages).2

theorem append_ne_empty_of_left (a b : String) (ha : a ≠ "") : a ++ b ≠ "" := by
  intro h
  apply ha
  have h2 := congrArg String.data h
  rw [String.data_append] at h2
  rcases List.append_eq_nil.mp h2 with ⟨h3, _⟩
  exact congrArg String.mk h3

theorem createSummary_ne_empty (messages : List Message) (h : messages ≠ []) :
    createSummary messages ≠ "" := by
  unfold createSummary
  rw [if_neg h]
  show (if (summaryScan messages).1 = [] then
      "General conversation with " ++ toString (summaryScan messages).2.1 ++ " exchanges"
    else
      "Discussed " ++ String.intercalate ", " (summaryScan messages).1 ++ " across " ++
        toString (summaryScan messages).2.1 ++ " exchanges") ≠ ""
  split
  · exact append_ne_empty_of_left _ _
      (append_ne_empty_of_left _ _ (by decide))
  · exact append_ne_empty_of_left _ _
      (append_ne_empty_of_left _ _
        (append_ne_empty_of_left _ _ (append_ne_empty_of_left _ _ (by decide))))

theorem pruneContext_le_noop (cm : ContextManager) (messages : List Message)
    (currentTokens : Int) (h : currentTokens ≤ cm.maxTokens) :
    pruneContext cm messages currentTokens = (messages, false) := by
  simp [pruneContext, h]

theorem autoPrune_noop_of_le (s : ChatSession)
    (h : (estimateTokens s.messages : Int) ≤ s.contextManager.maxTokens) :
    autoPrune s = (s, false) := by
  simp [autoPrune, pruneContext_le_noop _ _ _ h]

theorem pruneContext_pruned_eq (cm : ContextManager) (messages : List Message)
    (currentTokens : Int)
    (htok : cm.maxTokens < currentTokens)
    (hlen : cm.keepRecent * 2 < (pruneBody messages).length) :
    pruneContext cm messages currentTokens =
      ((if (leadingSystem messages).1.content ≠ "" then [(leadingSystem messages).1] else []) ++
       (if cm.summaryEnabled then
          [(⟨"system", "Previous conversation summary: " ++
              createSummary ((pruneBody messages).take
                ((pruneBody messages).length - cm.keepRecent * 2))⟩ : Message)]
        else []) ++
       (pruneBody messages).drop ((pruneBody messages).length - cm.keepRecent * 2),
       true) := by
  have hlen2 : ¬ ((pruneBody messages).length ≤ cm.keepRecent * 2) := not_le.mpr hlen
  have hrpos : 0 < (pruneBody messages).length - cm.keepRecent * 2 := by omega
  have hbody : pruneBody messages ≠ [] := by
    intro hnil
    rw [hnil] at hlen
    simp at hlen
  have htake : (pruneBody messages).take
      ((pruneBody messages).length - cm.keepRecent * 2) ≠ [] := by
    simp only [ne_eq, List.take_eq_nil_iff]
    push_neg
    exact ⟨by omega, hbody⟩
  have hsum := createSummary_ne_empty _ htake
  simp only [pruneContext, pruneBody] at *
  rw [if_neg (not_le.mpr htok), if_neg hlen2]
  by_cases hs : cm.summaryEnabled
  · rw [if_pos ⟨hs, hrpos⟩, if_pos hsum, if_pos hs]
  · rw [if_neg (fun hc => hs hc.1), if_neg hs]
    simp

theorem pruneContext_pruned_iff (cm : ContextManager) (messages : List Message)
    (currentTokens : Int) :
    (pruneContext cm messages currentTokens).2 = true ↔
      (cm.maxTokens < currentTokens ∧
       cm.keepRecent * 2 < (pruneBody messages).length) := by
  constructor
  · intro h
    by_cases h1 : currentTokens ≤ cm.maxTokens
    · rw [pruneContext_le_noop _ _ _ h1] at h
      simp at h
    · by_cases h2 : (pruneBody messages).length ≤ cm.keepRecent * 2
      · simp only [pruneContext, pruneBody] at h h2
        rw [if_neg h1, if_pos h2] at h
        simp at h
      · exact ⟨not_le.mp h1, not_le.mp h2⟩
  · intro ⟨h1, h2⟩
    rw [pruneContext_pruned_eq cm messages currentTokens h1 h2]

theorem leadingSystem_snd_le (messages : List Message) :
    (leadingSystem messages).2 ≤ messages.length := by
  cases messages with
  | nil => simp [leadingSystem]
  | cons m rest =>
    simp only [leadingSystem, List.length_cons]
    split <;> simp

theorem leadingSystem_content_startIdx (messages : List Message)
    (h : (leadingSystem messages).1.content ≠ "") :
    (leadingSystem messages).2 = 1 := by
  cases messages with
  | nil => simp [leadingSystem] at h
  | cons m rest =>
    by_cases hr : m.role = "system"
    · simp [leadingSystem, hr]
    · simp [leadingSystem, hr] at h

/-- C10: for every input sequence and every token estimate, the pruner output
never has more messages than the input: the synthesized summary message (and
the re-added system message) never outnumber the discarded messages, because
pruning only happens when more than `keepRecent*2` body messages exist. -/
theorem pruneContext_never_grows (cm : ContextManager) (messages : List Message)
    (currentTokens : Int) :
    ((pruneContext cm messages currentTokens).1).length ≤ messages.length := by
  by_cases h1 : currentTokens ≤ cm.maxTokens
  · rw [pruneContext_le_noop _ _ _ h1]
  · by_cases h2 : (pruneBody messages).length ≤ cm.keepRecent * 2
    · simp only [pruneContext, pruneBody] at h2 ⊢
      rw [if_neg h1, if_pos h2]
    · have h2' := not_le.mp h2
      rw [pruneContext_pruned_eq cm messages currentTokens (not_le.mp h1) h2']
      have hsys := leadingSystem_snd_le messages
      have hb : (pruneBody messages).length = messages.length - (leadingSystem messages).2 := by
        simp [pruneBody]
      by_cases hc : (leadingSystem messages).1.content ≠ ""
      · have hsi := leadingSystem_content_startIdx messages hc
        rw [if_pos hc]
        by_cases hs : cm.summaryEnabled
        · rw [if_pos hs]
          simp only [List.length_append, List.length_cons, List.length_nil,
            List.length_drop]
          omega
        · rw [if_neg hs]
          simp only [List.length_append, List.length_cons, List.length_nil,
            List.length_drop]
          omega
      · rw [if_neg hc]
        by_cases hs : cm.summaryEnabled
        · rw [if_pos hs]
          simp only [List.length_append, List.length_cons, List.length_nil,
            List.length_drop, List.nil_append]
          omega
        · rw [if_neg hs]
          simp only [List.length_append, List.length_cons, List.length_nil,
            List.length_drop, List.nil_append]
          omega

/-- C3 (amended): if the first message has the system role and non-empty
content, then for every `currentTokens`, `keepRecent` and `summaryEnabled`
the first message of the pruner output also has the system role (the original
system message, or it together with a synthesized summary). The source drops
a leading system message whose content is empty, hence the non-empty-content
hypothesis. -/
theorem pruneContext_preserves_leading_system (cm : ContextManager) (m : Message)
    (rest : List Message) (currentTokens : Int)
    (hrole : m.role = "system") (hcontent : m.content ≠ "") :
    ((pruneContext cm (m :: rest) currentTokens).1.head?.map Message.role) =
      some "system" := by
  have hsys : leadingSystem (m :: rest) = (m, 1) := by
    simp [leadingSystem, hrole]
  by_cases h1 : currentTokens ≤ cm.maxTokens
  · rw [pruneContext_le_noop _ _ _ h1]
    simp [hrole]
  · by_cases h2 : (pruneBody (m :: rest)).length ≤ cm.keepRecent * 2
    · simp only [pruneContext, pruneBody] at h2 ⊢
      rw [if_neg h1, if_pos h2]
      simp [hrole]
    · rw [pruneContext_pruned_eq cm _ _ (not_le.mp h1) (not_le.mp h2)]
      simp [hsys, hcontent, hrole]

/-- Witness for C3 at a concrete pruning input: over the limit, body longer
than `keepRecent*2`, system head with non-empty content. -/
theorem pruneContext_preserves_leading_system_witness :
    (⟨"system", "Be helpful."⟩ : Message).role = "system" ∧
    (⟨"system", "Be helpful."⟩ : Message).content ≠ "" ∧
    ((pruneContext ⟨0, 1, false⟩
        ((⟨"system", "Be helpful."⟩ : Message) ::
          [⟨"user", "q1"⟩, ⟨"assistant", "r1"⟩, ⟨"user", "q2"⟩, ⟨"assistant", "r2"⟩])
        100).1.head?.map Message.role) = some "system" :=
  ⟨by decide, by decide,
    pruneContext_preserves_leading_system _ _ _ _ (by decide) (by decide)⟩

/-- Counterexample to C3 as stated: a leading system message with empty
content is dropped by the pruner (the source re-adds the captured system
message only when its content is non-empty), and with summaries disabled the
output then starts with a user message. -/
theorem pruneContext_preserves_leading_system_counterexample :
    ([(⟨"system", ""⟩ : Message), ⟨"user", "aa"⟩, ⟨"assistant", "bb"⟩,
        ⟨"user", "cc"⟩, ⟨"assistant", "dd"⟩].head?.map Message.role) = some "system" ∧
    (pruneContext ⟨0, 1, false⟩
        [⟨"system", ""⟩, ⟨"user", "aa"⟩, ⟨"assistant", "bb"⟩,
          ⟨"user", "cc"⟩, ⟨"assistant", "dd"⟩] 100).2 = true ∧
    ((pruneContext ⟨0, 1, false⟩
        [⟨"system", ""⟩, ⟨"user", "aa"⟩, ⟨"assistant", "bb"⟩,
          ⟨"user", "cc"⟩, ⟨"assistant", "dd"⟩] 100).1.head?.map Message.role) =
      some "user" := by
  decide

/-- C4 (amended): whenever the pruner actually prunes, its output is: the
captured leading system message when its content is non-empty (the source
omits an empty-content one), then — when summaries are enabled — exactly one
synthesized system-role message whose content is
`"Previous conversation summary: "` followed by the summary of the discarded
body prefix, then exactly the input's last `keepRecent*2` body messages in
their original order. -/
theorem pruneContext_pruned_shape (cm : ContextManager) (messages : List Message)
    (currentTokens : Int)
    (h : (pruneContext cm messages currentTokens).2 = true) :
    (pruneContext cm messages currentTokens).1 =
      (if (leadingSystem messages).1.content ≠ "" then [(leadingSystem messages).1] else []) ++
      (if cm.summaryEnabled then
         [(⟨"system", "Previous conversation summary: " ++
             createSummary ((pruneBody messages).take
               ((pruneBody messages).length - cm.keepRecent * 2))⟩ : Message)]
       else []) ++
      (pruneBody messages).drop ((pruneBody messages).length - cm.keepRecent * 2) ∧
    ((pruneBody messages).drop
        ((pruneBody messages).length - cm.keepRecent * 2)).length =
      cm.keepRecent * 2 := by
  obtain ⟨h1, h2⟩ := (pruneContext_pruned_iff cm messages currentTokens).mp h
  refine ⟨?_, ?_⟩
  · rw [pruneContext_pruned_eq cm messages currentTokens h1 h2]
  · simp only [List.length_drop]
    omega

/-- Scenario A context manager: 6000-token limit, keep 3 recent exchanges,
summaries enabled. -/
def scenarioACM : ContextManager := ⟨6000, 3, true⟩

/-- A 1200-character message body, so that 21 messages estimate over 6000
tokens. -/
def bigContent : String := String.mk (List.replicate 1200 'a')

/-- Scenario A body: 20 alternating user/assistant messages. -/
def scenarioABody : List Message :=
  (List.range 20).map
    (fun i => if i % 2 = 0 then ⟨"user", bigContent⟩ else ⟨"assistant", bigContent⟩)

/-- Scenario A history: one system message plus the 20 body messages. -/
def scenarioAMsgs : List Message :=
  ⟨"system", "You are a helpful assistant."⟩ :: scenarioABody

/-- Witness for C4 on Scenario A: the estimate exceeds 6000 so pruning fires,
and the output is the system message, one summary message, and the last 6
body messages. -/
theorem pruneContext_pruned_shape_witness :
    shouldPrune scenarioACM scenarioAMsgs = true ∧
    (pruneContext scenarioACM scenarioAMsgs (estimateTokens scenarioAMsgs : Int)).2 = true ∧
    (pruneContext scenarioACM scenarioAMsgs (estimateTokens scenarioAMsgs : Int)).1 =
      ⟨"system", "You are a helpful assistant."⟩ ::
      ⟨"system", "Previous conversation summary: General conversation with 7 exchanges"⟩ ::
      scenarioABody.drop 14 := by
  have h : (pruneContext scenarioACM scenarioAMsgs
      (estimateTokens scenarioAMsgs : Int)).2 = true := by decide
  refine ⟨by decide, h, ?_⟩
  rw [(pruneContext_pruned_shape scenarioACM scenarioAMsgs
    (estimateTokens scenarioAMsgs : Int) h).1]
  rfl

/-- Counterexample to C4 as stated: with a leading system message of empty
content the pruned output does not start with that system message — the
source only re-adds a captured system message with non-empty content, so the
output here starts directly with the synthesized summary. -/
theorem pruneContext_pruned_shape_counterexample :
    ([(⟨"system", ""⟩ : Message), ⟨"user", "q1"⟩, ⟨"assistant", "r1"⟩,
        ⟨"user", "q2"⟩, ⟨"assistant", "r2"⟩].head? = some ⟨"system", ""⟩) ∧
    (pruneContext ⟨0, 1, true⟩
        [⟨"system", ""⟩, ⟨"user", "q1"⟩, ⟨"assistant", "r1"⟩,
          ⟨"user", "q2"⟩, ⟨"assistant", "r2"⟩] 100).2 = true ∧
    (pruneContext ⟨0, 1, true⟩
        [⟨"system", ""⟩, ⟨"user", "q1"⟩, ⟨"assistant", "r1"⟩,
          ⟨"user", "q2"⟩, ⟨"assistant", "r2"⟩] 100).1 =
      [⟨"system", "Previous conversation summary: General conversation with 1 exchanges"⟩,
       ⟨"user", "q2"⟩, ⟨"assistant", "r2"⟩] := by
  decide

theorem autoPrune_logger (s : ChatSession) : ((autoPrune s).1).logger = s.logger := by
  simp only [autoPrune]
  split <;> rfl

theorem autoPrune_contextManager (s : ChatSession) :
    ((autoPrune s).1).contextManager = s.contextManager := by
  simp only [autoPrune]
  split <;> rfl

theorem pruneIfNeeded_logger (s : ChatSession) : (pruneIfNeeded s).logger = s.logger := by
  simp only [pruneIfNeeded]
  split <;> split <;> simp [autoPrune_logger]

theorem pruneIfNeeded_contextManager (s : ChatSession) :
    (pruneIfNeeded s).contextManager = s.contextManager := by
  simp only [pruneIfNeeded]
  split <;> split <;> simp [autoPrune_contextManager]

theorem pruneIfNeeded_eq_self (s : ChatSession)
    (h1 : shouldPrune s.contextManager s.messages = false)
    (h2 : s.messages.length ≤ 1000) :
    pruneIfNeeded s = s := by
  have h3 : ¬ (1000 < s.messages.length) := not_lt.mpr h2
  simp [pruneIfNeeded, h1, h3]

theorem removeLastUserMessage_append (l : List Message) (u : String) :
    removeLastUserMessage (l ++ [(⟨"user", u⟩ : Message)]) = l := by
  unfold removeLastUserMessage
  rw [List.getLast?_concat]
  simp

/-- C1 (amended): if the completion capability fails and the pre-call state
did not trigger either auto-prune check (token estimate within `maxTokens`
and at most 1000 messages), the just-appended user message is removed and the
history — hence `contextStats.totalMessages` — is exactly as before the
call. (When a pre-call auto-prune fires, the failed turn keeps the pruned
history instead; see the counterexample.) -/
theorem processUserMessage_rollback (s : ChatSession) (userMessage e : String)
    (responseTime : Int)
    (h1 : shouldPrune s.contextManager s.messages = false)
    (h2 : s.messages.length ≤ 1000) :
    (processUserMessage s userMessage (.err e) responseTime).1.messages = s.messages ∧
    (getContextStats
        (processUserMessage s userMessage (.err e) responseTime).1.contextManager
        (processUserMessage s userMessage (.err e) responseTime).1.messages).totalMessages =
      (getContextStats s.contextManager s.messages).totalMessages := by
  have hp := pruneIfNeeded_eq_self s h1 h2
  have hmsg : (processUserMessage s userMessage (.err e) responseTime).1.messages =
      s.messages := by
    simp only [processUserMessage, hp]
    exact removeLastUserMessage_append s.messages userMessage
  exact ⟨hmsg, by rw [getContextStats, getContextStats, hmsg]⟩

/-- Witness for C1: a failing turn on a small in-limit session leaves the
two-message history intact. -/
theorem processUserMessage_rollback_witness :
    shouldPrune (⟨100, 3, true⟩ : ContextManager)
      [(⟨"system", "Be helpful."⟩ : Message), ⟨"user", "hi"⟩] = false ∧
    (processUserMessage
        ⟨"s1", [⟨"system", "Be helpful."⟩, ⟨"user", "hi"⟩], "Be helpful.",
          mkMetricsLogger ⟨50000, 10000, 8/10, 8000, 0⟩, ⟨100, 3, true⟩⟩
        "again" (.err "api down") 5).1.messages =
      [⟨"system", "Be helpful."⟩, ⟨"user", "hi"⟩] :=
  ⟨by decide,
    (processUserMessage_rollback
      ⟨"s1", [⟨"system", "Be helpful."⟩, ⟨"user", "hi"⟩], "Be helpful.",
        mkMetricsLogger ⟨50000, 10000, 8/10, 8000, 0⟩, ⟨100, 3, true⟩⟩
      "again" "api down" 5 (by decide) (by decide)).1⟩

/-- Counterexample to C1 as stated: when the pre-call history already trips
the token check, `ProcessUserMessage` prunes before appending, and on failure
only the appended user message is rolled back — the history ends up pruned
(here empty), not equal to its pre-call value. -/
theorem processUserMessage_rollback_counterexample :
    (processUserMessage
        ⟨"s1", [⟨"user", "hello"⟩], "",
          mkMetricsLogger ⟨0, 0, 0, 0, 0⟩, ⟨0, 0, false⟩⟩
        "x" (.err "boom") 0).1.messages = [] ∧
    ([(⟨"user", "hello"⟩ : Message)].length = 1) ∧
    (getContextStats (⟨0, 0, false⟩ : ContextManager)
        (processUserMessage
          ⟨"s1", [⟨"user", "hello"⟩], "",
            mkMetricsLogger ⟨0, 0, 0, 0, 0⟩, ⟨0, 0, false⟩⟩
          "x" (.err "boom") 0).1.messages).totalMessages = 0 ∧
    (getContextStats (⟨0, 0, false⟩ : ContextManager)
        [(⟨"user", "hello"⟩ : Message)]).totalMessages = 1 := by
  decide

/-- C5: pruning is a no-op at or under the limit — `PruneContext` returns the
original sequence with `pruned=false` whenever `currentTokens ≤ maxTokens`,
and `AutoPrune` returns `false` leaving the session untouched whenever the
estimate is within the limit; re-running the pruner on an output that is
under the limit therefore reports `pruned=false` again (idempotence of the
no-op case). -/
theorem prune_noop_within_limit :
    (∀ (cm : ContextManager) (messages : List Message) (currentTokens : Int),
        currentTokens ≤ cm.maxTokens →
        pruneContext cm messages currentTokens = (messages, false)) ∧
    (∀ s : ChatSession,
        (estimateTokens s.messages : Int) ≤ s.contextManager.maxTokens →
        autoPrune s = (s, false)) :=
  ⟨pruneContext_le_noop, autoPrune_noop_of_le⟩

/-- Witness for C5 on a concrete in-limit session. -/
theorem prune_noop_within_limit_witness :
    pruneContext ⟨100, 3, true⟩ [⟨"user", "hi"⟩] 50 = ([⟨"user", "hi"⟩], false) ∧
    autoPrune
        ⟨"s1", [⟨"system", "Be helpful."⟩, ⟨"user", "hi"⟩], "Be helpful.",
          mkMetricsLogger ⟨50000, 10000, 8/10, 8000, 0⟩, ⟨100, 3, true⟩⟩ =
      (⟨"s1", [⟨"system", "Be helpful."⟩, ⟨"user", "hi"⟩], "Be helpful.",
          mkMetricsLogger ⟨50000, 10000, 8/10, 8000, 0⟩, ⟨100, 3, true⟩⟩, false) :=
  ⟨prune_noop_within_limit.1 _ _ _ (by decide),
   prune_noop_within_limit.2 _ (by decide)⟩

theorem estimateTokens_foldl (messages : List Message) (init : Nat) :
    messages.foldl
        (fun totalChars msg => totalChars + msg.role.length + msg.content.length + 20)
        init =
      init + (messages.map (fun m => m.role.length + m.content.length + 20)).sum := by
  induction messages generalizing init with
  | nil => simp
  | cons m ms ih =>
    rw [List.foldl_cons, ih]
    simp
    omega

/-- C9: the token estimate is exactly the grand total of
`len(role) + len(content) + 20` over all messages, integer-divided by 4 (a
pure function of the message list), and `ShouldPrune` holds exactly when
this estimate strictly exceeds `maxTokens`. -/
theorem estimateTokens_spec :
    (∀ messages : List Message,
        estimateTokens messages =
          (messages.map (fun m => m.role.length + m.content.length + 20)).sum / 4) ∧
    (∀ (cm : ContextManager) (messages : List Message),
        shouldPrune cm messages = decide ((estimateTokens messages : Int) > cm.maxTokens)) := by
  constructor
  · intro messages
    unfold estimateTokens
    rw [estimateTokens_foldl]
    simp
  · intro cm messages
    rfl

/-- The hard-ceiling failing input: 1001 short user messages (estimate 6006
tokens) in a session whose `maxTokens` is 8000. -/
def hardCeilingSession : ChatSession :=
  ⟨"s1", List.replicate 1001 ⟨"user", ""⟩, "",
    mkMetricsLogger ⟨50000, 10000, 8/10, 8000, 0⟩, ⟨8000, 3, true⟩⟩

theorem hardCeiling_estimate :
    estimateTokens (List.replicate 1001 (⟨"user", ""⟩ : Message)) = 6006 := by
  unfold estimateTokens
  rw [estimateTokens_foldl, List.map_replicate, List.sum_replicate]
  have h4 : ("user" : String).length = 4 := by decide
  have h0 : ("" : String).length = 0 := by decide
  simp [h4, h0]

/-- C2 (code bug): with more than 1000 messages but a token estimate within
`maxTokens`, the hard-ceiling branch of `ProcessUserMessage` calls
`AutoPrune`, which re-checks the token estimate and refuses to prune — so
the call does not reduce the message count at all (here it grows the history
by the new user/assistant pair), contradicting the documented purpose of the
1000-message hard limit. -/
theorem hardCeiling_does_not_force_prune :
    1000 < hardCeilingSession.messages.length ∧
    shouldPrune hardCeilingSession.contextManager hardCeilingSession.messages = false ∧
    autoPrune hardCeilingSession = (hardCeilingSession, false) ∧
    (processUserMessage hardCeilingSession "hi" (.ok ⟨[], none⟩) 0).1.messages.length =
      hardCeilingSession.messages.length + 2 := by
  have hest : estimateTokens hardCeilingSession.messages = 6006 := hardCeiling_estimate
  have hsp : shouldPrune hardCeilingSession.contextManager hardCeilingSession.messages =
      false := by
    rw [shouldPrune, hest]
    decide
  have hap : autoPrune hardCeilingSession = (hardCeilingSession, false) :=
    autoPrune_noop_of_le _ (by rw [hest]; decide)
  have hlen : hardCeilingSession.messages.length = 1001 := by
    simp [hardCeilingSession]
  have hpin : pruneIfNeeded hardCeilingSession = hardCeilingSession := by
    simp [pruneIfNeeded, hsp, hap]
  refine ⟨by omega, hsp, hap, ?_⟩
  simp only [processUserMessage, hpin]
  simp

theorem logInteraction_totalTokens (ml : MetricsLogger) (lg : InteractionLog) :
    (logInteraction ml lg).session.totalTokens =
      ml.session.totalTokens +
        (match lg.usage with | some u => u.totalTokens | none => 0) := by
  rcases lg with ⟨usage, rt, succ, et, pt⟩
  rcases usage with _ | u <;> cases succ <;> simp [logInteraction]

theorem processUserMessage_totalTokens (s : ChatSession) (u : String)
    (r : CompletionResult) (rt : Int) :
    (processUserMessage s u r rt).1.logger.session.totalTokens =
      s.logger.session.totalTokens + turnTokens r := by
  have hp := pruneIfNeeded_logger s
  rcases r with ⟨choices, usage⟩ | e
  · rcases choices with _ | ⟨c, cs⟩
    · simp [processUserMessage, logInteraction_totalTokens, hp, turnTokens, recordedUsage]
    · rcases usage with _ | u' <;>
        simp [processUserMessage, logInteraction_totalTokens, hp, turnTokens, recordedUsage]
  · simp [processUserMessage, logInteraction_totalTokens, hp, turnTokens, recordedUsage]

theorem processTurns_totalTokens (s : ChatSession) (turns : List TurnInput) :
    (processTurns s turns).logger.session.totalTokens =
      s.logger.session.totalTokens + (turns.map (fun t => turnTokens t.result)).sum := by
  induction turns generalizing s with
  | nil => simp [processTurns]
  | cons t ts ih =>
    simp only [processTurns, List.foldl_cons] at ih ⊢
    rw [ih, processUserMessage_totalTokens]
    simp only [List.map_cons, List.sum_cons]
    omega

/-- C7: over any sequence of turns (successes and failures), the session
token counter never decreases — any earlier prefix's counter bounds the later
one, provided the provider reports non-negative token totals — and the final
`sessionSummary().totalTokens` equals the starting counter plus the sum of
the per-turn recorded usage totals; failed turns contribute 0 because the
orchestrator passes no usage on failure, so this sum is exactly the sum of
the successful turns' `usage.totalTokens`. -/
theorem sessionTokens_monotone_and_sum (s : ChatSession) (pre post : List TurnInput)
    (hnonneg : ∀ t ∈ post, 0 ≤ turnTokens t.result) :
    (getSessionSummary (processTurns s (pre ++ post)).logger).totalTokens =
      s.logger.session.totalTokens +
        ((pre ++ post).map (fun t => turnTokens t.result)).sum ∧
    (processTurns s pre).logger.session.totalTokens ≤
      (processTurns s (pre ++ post)).logger.session.totalTokens := by
  have hsplit : processTurns s (pre ++ post) = processTurns (processTurns s pre) post := by
    simp [processTurns, List.foldl_append]
  constructor
  · show (processTurns s (pre ++ post)).logger.session.totalTokens = _
    exact processTurns_totalTokens s (pre ++ post)
  · rw [hsplit, processTurns_totalTokens (processTurns s pre) post]
    have hpost : 0 ≤ (post.map (fun t => turnTokens t.result)).sum := by
      apply List.sum_nonneg
      intro x hx
      rcases List.mem_map.mp hx with ⟨t, ht, rfl⟩
      exact hnonneg t ht
    omega

/-- Witness session for the budget-counter claim. -/
def w7Session : ChatSession :=
  ⟨"s1", [⟨"system", "Be helpful."⟩], "Be helpful.",
    mkMetricsLogger ⟨50000, 10000, 8/10, 8000, 0⟩, ⟨6000, 3, true⟩⟩

/-- Witness prefix: one successful turn with 15 total tokens. -/
def w7Pre : List TurnInput :=
  [⟨"hi", .ok ⟨[⟨⟨"assistant", "hello"⟩⟩], some ⟨10, 5, 15⟩⟩, 100⟩]

/-- Witness suffix: one failed turn. -/
def w7Post : List TurnInput := [⟨"again", .err "api down", 50⟩]

/-- Witness for C7 on a concrete success-then-failure trace. -/
theorem sessionTokens_monotone_and_sum_witness :
    (∀ t ∈ w7Post, 0 ≤ turnTokens t.result) ∧
    ((getSessionSummary (processTurns w7Session (w7Pre ++ w7Post)).logger).totalTokens =
      w7Session.logger.session.totalTokens +
        ((w7Pre ++ w7Post).map (fun t => turnTokens t.result)).sum ∧
     (processTurns w7Session w7Pre).logger.session.totalTokens ≤
      (processTurns w7Session (w7Pre ++ w7Post)).logger.session.totalTokens) :=
  ⟨by decide, sessionTokens_monotone_and_sum w7Session w7Pre w7Post (by decide)⟩

theorem pctWarning_ne_costWarning (u : ℚ) (t l : Int) (c : ℚ) :
    pctWarning u t l ≠ costWarning c := by
  intro h
  have h2 := congrArg String.data h
  simp only [pctWarning, costWarning, String.data_append, List.append_assoc] at h2
  have h3 := congrArg (fun xs => xs[8]?) h2
  simp only at h3
  rw [List.getElem?_append_left (by decide), List.getElem?_append_left (by decide)] at h3
  exact absurd h3 (by decide)

theorem costWarning_ne_pctWarning (c : ℚ) (u : ℚ) (t l : Int) :
    costWarning c ≠ pctWarning u t l :=
  (pctWarning_ne_costWarning u t l c).symm

/-- Scenario B budget configuration: session limit 10000, warn threshold 0.8,
all other fields zero. -/
def scenarioBCfg : TokenBudgetConfig := ⟨0, 10000, 8/10, 0, 0⟩

/-- Scenario B logger state: a fresh logger after one successful interaction
totaling 8500 tokens. -/
def scenarioBLogger : MetricsLogger :=
  logInteraction (mkMetricsLogger scenarioBCfg)
    ⟨some ⟨6000, 2500, 8500⟩, 1200, true, "", "general"⟩

theorem scenarioB_tokens : scenarioBLogger.session.totalTokens = 8500 := by decide

theorem scenarioB_limit : scenarioBLogger.budgetCfg.sessionLimit = 10000 := rfl

theorem scenarioB_warn : scenarioBLogger.budgetCfg.warnThreshold = 8 / 10 := rfl

theorem scenarioB_cost : scenarioBLogger.session.estimatedCost = 0 := by
  simp [scenarioBLogger, logInteraction, mkMetricsLogger, scenarioBCfg]

theorem scenarioB_usage :
    (scenarioBLogger.session.totalTokens : ℚ) / (scenarioBLogger.budgetCfg.sessionLimit : ℚ) =
      17 / 20 := by
  rw [scenarioB_tokens, scenarioB_limit]
  norm_num

theorem fmtFixed_85 : fmtFixed 1 ((17 / 20 : ℚ) * 100) = "85.0" := by
  unfold fmtFixed
  rw [show ((17 / 20 : ℚ) * 100 * (((10 : Int) ^ 1 : Int) : ℚ) + 1 / 2) =
      ((1701 : ℤ) : ℚ) / ((2 : ℕ) : ℚ) by push_cast; norm_num]
  rw [Rat.floor_intCast_div_natCast]
  decide

theorem pctWarning_85 :
    pctWarning (17 / 20) 8500 10000 =
      "Session token usage at 85.0% of limit (8500/10000 tokens)" := by
  unfold pctWarning
  rw [fmtFixed_85]
  decide

/-- C6: `CheckBudgetStatus` recommends pruning exactly when the session
tokens strictly exceed the prune threshold; with a positive session limit it
appends the formatted percentage warning exactly when the usage fraction
strictly exceeds `warnThreshold`, and reports over-budget exactly when that
fraction exceeds 1; independently it appends the cost warning exactly when
the estimated cost exceeds 1.0. In Scenario B (limit 10000, threshold 0.8,
8500 accumulated tokens) a warning mentioning "85.0%" is emitted and
`overBudget` is false. -/
theorem checkBudgetStatus_spec (ml : MetricsLogger) :
    ((checkBudgetStatus ml).shouldPrune =
        decide (ml.budgetCfg.pruneThreshold < ml.session.totalTokens)) ∧
    (0 < ml.budgetCfg.sessionLimit →
      ((pctWarning ((ml.session.totalTokens : ℚ) / (ml.budgetCfg.sessionLimit : ℚ))
            ml.session.totalTokens ml.budgetCfg.sessionLimit ∈
          (checkBudgetStatus ml).warnings) ↔
        ml.budgetCfg.warnThreshold <
          (ml.session.totalTokens : ℚ) / (ml.budgetCfg.sessionLimit : ℚ))) ∧
    ((checkBudgetStatus ml).overBudget = true ↔
      (0 < ml.budgetCfg.sessionLimit ∧
        1 < (ml.session.totalTokens : ℚ) / (ml.budgetCfg.sessionLimit : ℚ))) ∧
    ((costWarning ml.session.estimatedCost ∈ (checkBudgetStatus ml).warnings) ↔
      1 < ml.session.estimatedCost) ∧
    ((checkBudgetStatus scenarioBLogger).warnings.any
        (fun w => strContains w "85.0%") = true ∧
      (checkBudgetStatus scenarioBLogger).overBudget = false) := by
  have hl : 0 < scenarioBLogger.budgetCfg.sessionLimit := by
    rw [scenarioB_limit]; norm_num
  have hw : scenarioBLogger.budgetCfg.warnThreshold <
      (scenarioBLogger.session.totalTokens : ℚ) /
        (scenarioBLogger.budgetCfg.sessionLimit : ℚ) := by
    rw [scenarioB_warn, scenarioB_usage]; norm_num
  have hcost : ¬ (1 < scenarioBLogger.session.estimatedCost) := by
    rw [scenarioB_cost]; norm_num
  have hno : ¬ (1 < (scenarioBLogger.session.totalTokens : ℚ) /
      (scenarioBLogger.budgetCfg.sessionLimit : ℚ)) := by
    rw [scenarioB_usage]; norm_num
  refine ⟨rfl, ?_, ?_, ?_, ?_, ?_⟩
  · intro hl2
    by_cases hw2 : ml.budgetCfg.warnThreshold <
        (ml.session.totalTokens : ℚ) / (ml.budgetCfg.sessionLimit : ℚ) <;>
      by_cases hc2 : 1 < ml.session.estimatedCost <;>
        simp [checkBudgetStatus, hl2, hw2, hc2, pctWarning_ne_costWarning]
  · by_cases hl2 : 0 < ml.budgetCfg.sessionLimit <;>
      simp [checkBudgetStatus, hl2]
  · by_cases hl2 : 0 < ml.budgetCfg.sessionLimit <;>
      by_cases hw2 : ml.budgetCfg.warnThreshold <
        (ml.session.totalTokens : ℚ) / (ml.budgetCfg.sessionLimit : ℚ) <;>
        by_cases hc2 : 1 < ml.session.estimatedCost <;>
          simp [checkBudgetStatus, hl2, hw2, hc2, costWarning_ne_pctWarning]
  · have hwarns : (checkBudgetStatus scenarioBLogger).warnings =
        [pctWarning ((scenarioBLogger.session.totalTokens : ℚ) /
            (scenarioBLogger.budgetCfg.sessionLimit : ℚ))
          scenarioBLogger.session.totalTokens scenarioBLogger.budgetCfg.sessionLimit] := by
      simp [checkBudgetStatus, hl, hw, hcost]
    rw [hwarns, scenarioB_usage, scenarioB_tokens, scenarioB_limit, pctWarning_85]
    decide
  · simp [checkBudgetStatus, hl, hno]

/-- Witness for C6: on the concrete Scenario B state the positive-limit
hypothesis holds and the percentage warning is present. -/
theorem checkBudgetStatus_spec_witness :
    0 < scenarioBLogger.budgetCfg.sessionLimit ∧
    pctWarning ((scenarioBLogger.session.totalTokens : ℚ) /
          (scenarioBLogger.budgetCfg.sessionLimit : ℚ))
        scenarioBLogger.session.totalTokens scenarioBLogger.budgetCfg.sessionLimit ∈
      (checkBudgetStatus scenarioBLogger).warnings :=
  ⟨by rw [scenarioB_limit]; norm_num,
    ((checkBudgetStatus_spec scenarioBLogger).2.1 (by rw [scenarioB_limit]; norm_num)).mpr
      (by rw [scenarioB_warn, scenarioB_usage]; norm_num)⟩

/-- C8 (amended): the per-turn `promptType` is computed by `ClassifyPrompt`
(priority order code_help, explanation, creative, analysis, problem_solving,
language; default general); the summarizer's three topic buckets use keyword
subsets of the corresponding classifier buckets (so any text the summarizer
would tag code/debugging is classified `code_help`), but the keyword sets of
the two heuristics are not the same, so the heuristics disagree on
classifier-only keywords. -/
theorem classifyPrompt_spec :
    (∀ (s : ChatSession) (u : String) (r : CompletionResult) (rt : Int)
        (out : ChatResponse),
        (processUserMessage s u r rt).2 = some out → out.promptType = classifyPrompt u) ∧
    (["code", "debug", "error"].all (fun k => codeHelpKeywords.contains k) = true) ∧
    (["explain", "how", "what"].all (fun k => explanationKeywords.contains k) = true) ∧
    (["write", "create", "generate"].all (fun k => creativeKeywords.contains k) = true) ∧
    (∀ input : String,
        (strContains (toLowerStr input) "code" || strContains (toLowerStr input) "debug" ||
          strContains (toLowerStr input) "error") = true →
        classifyPrompt input = "code_help") := by
  refine ⟨?_, by decide, by decide, by decide, ?_⟩
  · intro s u r rt out h
    rcases r with resp | e
    · simp only [processUserMessage, Option.some.injEq] at h
      rw [← h]
    · simp [processUserMessage] at h
  · intro input h
    have hne : input ≠ "" := by
      intro he
      rw [he] at h
      revert h
      decide
    unfold classifyPrompt
    rw [if_neg hne]
    have hm : matchesAny (toLowerStr input) codeHelpKeywords = true := by
      simp only [matchesAny, codeHelpKeywords, List.any_cons, List.any_nil,
        Bool.or_eq_true] at h ⊢
      tauto
    simp [hm]

/-- Witness for C8 on a concrete utterance containing a summarizer
code/debugging keyword. -/
theorem classifyPrompt_spec_witness :
    (strContains (toLowerStr "please debug this") "debug" ||
      strContains (toLowerStr "please debug this") "error" ||
      strContains (toLowerStr "please debug this") "code") = true ∧
    classifyPrompt "please debug this" = "code_help" :=
  ⟨by decide,
    classifyPrompt_spec.2.2.2.2 "please debug this" (by decide)⟩

/-- Counterexample to C8 as stated: the two heuristics are not the same —
"programming" is a classifier-only keyword, so `ClassifyPrompt` buckets it
as `code_help` while the summarizer extracts no topic at all and falls back
to the "General conversation" form. -/
theorem classifyPrompt_summarizer_counterexample :
    classifyPrompt "programming" = "code_help" ∧
    (summaryScan [⟨"user", "programming"⟩]).1 = [] ∧
    createSummary [⟨"user", "programming"⟩] =
      "General conversation with 1 exchanges" := by
  decide

end ChatGBT
